import Mathlib

/-!
Verification development for the HR-assistant chat routing core
(`src/main.py`): the mood classifier (`detect_mood`), the check-in
detector (`is_checkin_request`), the mood log store (`log_mood_to_csv`),
and the per-message conversation routing of lines 192-287, shallowly
embedded over Lean strings and lists.

Modelling conventions:
- Python strings are Lean `String`s; `str.lower`, `str.strip` and the
  substring operator `in` are modelled over ASCII (`pyLower`, `pyStrip`,
  `pyIn`), which is exact on every literal appearing in the program.
- `int(text)` is modelled by `pyIntParse` (optional surrounding
  whitespace, optional sign, ASCII digits with single underscores
  allowed between digits, as in CPython 3.6+).
- The CSV mood log is a list of rows behind an `Option` (`none` = file
  does not exist); the wall clock is an explicit `Nat` parameter.
- The DeepSeek client and its remote call are a `Config` value: whether
  a client object exists (API key present) and what one completion call
  would return (`Except Unit (Option String)`, `error` = raised
  exception, `ok none` = null message content).
-/

/-- ASCII lower-casing of a character, as Python `str.lower` acts on the
ASCII range (every string literal in the program is ASCII apart from
punctuation that `lower` leaves unchanged). -/
def pyLowerChar (c : Char) : Char :=
  if 65 ≤ c.toNat ∧ c.toNat ≤ 90 then Char.ofNat (c.toNat + 32) else c

/-- Model of Python `str.lower` on the text handled by the program. -/
def pyLower (s : String) : String :=
  ⟨s.data.map pyLowerChar⟩

/-- Whitespace characters stripped by Python `str.strip` and ignored by
`int`, restricted to ASCII. -/
def isPyWs (c : Char) : Bool :=
  c = ' ' || c = '\t' || c = '\n' || c = '\r' || c.toNat = 11 || c.toNat = 12

/-- Strip `isPyWs` characters from both ends of a character list. -/
def pyStripList (l : List Char) : List Char :=
  ((l.dropWhile isPyWs).reverse.dropWhile isPyWs).reverse

/-- Model of Python `str.strip` (no arguments). -/
def pyStrip (s : String) : String :=
  ⟨pyStripList s.data⟩

/-- Does the list start with the given pattern? -/
def listStartsWith : List Char → List Char → Bool
  | _, [] => true
  | [], _ :: _ => false
  | c :: cs, p :: ps => c = p && listStartsWith cs ps

/-- Does the list contain the pattern as a contiguous sublist? -/
def listContains : List Char → List Char → Bool
  | [], pat => pat.isEmpty
  | c :: cs, pat => listStartsWith (c :: cs) pat || listContains cs pat

/-- Model of the Python substring test `pat in text`. -/
def pyIn (pat text : String) : Bool :=
  listContains text.data pat.data

/-- Trigger phrases of the "stress" tag (src/main.py line 41). -/
def stressPhrases : List String :=
  ["i\x27m stressed", "im stressed", "feeling stressed", "pressure",
   "overwhelmed", "burnt out", "burned out"]

/-- Trigger phrases of the "anxiety" tag (src/main.py line 42). -/
def anxietyPhrases : List String :=
  ["anxious", "worried", "panic", "nervous"]

/-- Trigger phrases of the "sad" tag (src/main.py line 43). -/
def sadPhrases : List String :=
  ["sad", "feeling down", "depressed", "hopeless"]

/-- Trigger phrases of the "tired" tag (src/main.py line 44). -/
def tiredPhrases : List String :=
  ["tired", "exhausted", "drained", "no energy"]

/-- Phrase table of `detect_mood` (src/main.py lines 40-45), in source
order: stress, anxiety, sad, tired. -/
def mood_map : List (String × List String) :=
  [("stress", stressPhrases), ("anxiety", anxietyPhrases),
   ("sad", sadPhrases), ("tired", tiredPhrases)]

/-- Mood classifier `detect_mood` (src/main.py lines 38-49): lower-case
the text, return the first tag of `mood_map` one of whose phrases is a
substring, else `none`. -/
def detect_mood (text : String) : Option String :=
  (mood_map.find? (fun kv => kv.2.any (fun p => pyIn p (pyLower text)))).map (·.1)

/-- Canned replies `MOOD_RESPONSES` (src/main.py lines 51-56). -/
def MOOD_RESPONSES (tag : String) : String :=
  if tag = "stress" then
    "I’m sorry you’re feeling stressed. Consider a short break, slow breathing, and prioritising one thing at a time. If helpful, speak with your manager or HR."
  else if tag = "anxiety" then
    "Anxiety can be difficult. Take it step by step. If it persists or escalates, please consider speaking with your manager or HR."
  else if tag = "sad" then
    "I’m sorry you’re feeling this way. If you’d like, consider speaking with your manager or HR for support."
  else if tag = "tired" then
    "It sounds like you’ve been working hard. If possible, take a break, hydrate, and protect your rest."
  else ""

/-- Keyword table of `is_checkin_request` (src/main.py lines 60-64). -/
def checkin_keywords : List String :=
  ["check in", "check-in", "mood check", "mood check-in",
   "how am i doing", "not feeling good", "motivate me", "motivation",
   "i feel off", "im unproductive", "i’m unproductive"]

/-- Check-in detector `is_checkin_request` (src/main.py lines 58-65). -/
def is_checkin_request (text : String) : Bool :=
  checkin_keywords.any (fun k => pyIn k (pyLower text))

/-- One row of the mood-log CSV file: the header `Timestamp,Mood` or a
timestamped score record. -/
inductive CsvRow where
  | header : CsvRow
  | record (ts : Nat) (score : Int) : CsvRow
  deriving Repr, DecidableEq

/-- Mood log writer `log_mood_to_csv` (src/main.py lines 67-74): open in
append mode, write the header first when the file did not yet exist,
then the one record. `none` models a missing file. -/
def log_mood_to_csv (ts : Nat) (score : Int) (file : Option (List CsvRow)) :
    List CsvRow :=
  (match file with
   | none => [CsvRow.header]
   | some rows => rows) ++ [CsvRow.record ts score]

/-- ASCII digit test ('0' to '9'). -/
def isAsciiDigit (c : Char) : Bool := 48 ≤ c.toNat && c.toNat ≤ 57

/-- Value of an ASCII digit character. -/
def digitVal (c : Char) : Nat := c.toNat - 48

/-- Digits of a Python integer literal after the first digit: each
further character is a digit or a single underscore followed by a
digit. -/
def parseDigitsAux : Nat → List Char → Option Nat
  | acc, [] => some acc
  | acc, c :: cs =>
      if isAsciiDigit c then parseDigitsAux (acc * 10 + digitVal c) cs
      else if c = '_' then
        match cs with
        | [] => none
        | d :: cs' =>
            if isAsciiDigit d then parseDigitsAux (acc * 10 + digitVal d) cs'
            else none
      else none

/-- Parse a nonempty digit string with CPython underscore grouping. -/
def parseDigits : List Char → Option Nat
  | [] => none
  | c :: cs => if isAsciiDigit c then parseDigitsAux (digitVal c) cs else none

/-- Model of CPython `int(text)` on ASCII text: strip whitespace, accept
an optional sign, then digits with single underscores between digits. -/
def pyIntParse (s : String) : Option Int :=
  match pyStripList s.data with
  | [] => none
  | c :: rest =>
      if c = '+' then (parseDigits rest).map Int.ofNat
      else if c = '-' then (parseDigits rest).map (fun n => -(n : Int))
      else (parseDigits (c :: rest)).map Int.ofNat

/-- One chat message of the session history (src/main.py line 180). -/
structure Message where
  role : String
  content : String
  deriving Repr, DecidableEq

/-- Per-session state: message history and the pending check-in flag
(src/main.py lines 179-182). -/
structure Session where
  history : List Message
  pending_checkin : Bool
  deriving Repr, DecidableEq

/-- External configuration of one handler run: whether a DeepSeek
client exists (API key present, src/main.py lines 128-133) and what one
completion call would produce (`error` = raised exception). -/
structure Config where
  clientPresent : Bool
  gatewayResponse : Except Unit (Option String)

/-- The routing decision the if-chain of src/main.py lines 202-247
takes for a (stripped) message, in source order: greeting literal, mood
keyword, check-in request, pending numeric answer, free-form fallthrough. -/
inductive Route where
  | greeting : Route
  | moodHit (tag : String) : Route
  | checkinStart : Route
  | checkinAnswer : Route
  | freeform : Route
  deriving Repr, DecidableEq

/-- Routing of one stripped message, mirroring the early-`st.stop`
if-chain order of src/main.py lines 202-247. -/
def route (pending : Bool) (text : String) : Route :=
  if pyLower text = "hi" ∨ pyLower text = "hello" ∨ pyLower text = "hey" then
    Route.greeting
  else
    match detect_mood text with
    | some m => Route.moodHit m
    | none =>
      if is_checkin_request text then Route.checkinStart
      else if pending then Route.checkinAnswer
      else Route.freeform

/-- Fixed greeting reply (src/main.py line 203). -/
def greetingReply : String :=
  "Hello. Ask me something like: ‘How many leave days do I get?’ or ‘Can you review my CV summary?’"

/-- Fixed 1-10 check-in prompt (src/main.py line 219). -/
def checkinPrompt : String :=
  "On a scale of 1–10, how are you feeling today? Type a number and press Enter."

/-- Acknowledgment reply for a logged score (src/main.py line 232). -/
def ackReply (score : Int) : String :=
  "Thanks — I’ve logged your mood as **" ++ toString score ++
    "/10**. If you’d like, tell me what’s driving that score and I’ll suggest next steps."

/-- Fixed re-prompt for an invalid check-in answer (src/main.py line 238). -/
def repromptReply : String :=
  "Please enter a whole number from **1 to 10**."

/-- Fixed missing-API-key reply (src/main.py line 248). -/
def missingKeyReply : String :=
  "I can’t call DeepSeek yet because the API key is missing. Add it in Streamlit Secrets as **DEEPSEEK_API_KEY** (recommended), or paste it in the sidebar."

/-- Fixed error box shown when the DeepSeek call raises (src/main.py
line 286). -/
def gatewayErrorShown : String :=
  "DeepSeek request failed (see details below)."

/-- Fixed substitute for an empty completion (src/main.py line 282). -/
def emptyResponseReply : String :=
  "Empty response returned."

/-- Result of handling one user message: the updated session, the mood
log file, the assistant output shown to the user, and whether a remote
completion call was attempted. -/
structure HandleResult where
  session : Session
  file : Option (List CsvRow)
  shown : String
  gatewayCalled : Bool
  deriving Repr, DecidableEq

/-- Assistant reply text built from a completion response
(src/main.py line 282): the trimmed content, or the fixed substitute
when it is null or trims to the empty string. -/
def gatewayReply (content : Option String) : String :=
  if pyStrip (content.getD "") = "" then emptyResponseReply
  else pyStrip (content.getD "")

/-- History after appending the stripped user message (src/main.py
line 197). -/
def histWithUser (sess : Session) (text : String) : List Message :=
  sess.history ++ [⟨"user", text⟩]

/-- Handler for one chat input, translated from src/main.py lines
192-287: strip the raw text, append it to the history, then run the
routing if-chain. On a valid pending answer the score is logged at the
current clock `ts` and the flag cleared; on a DeepSeek exception only
the error box is shown and no assistant message is appended. -/
def handle_message (cfg : Config) (ts : Nat) (sess : Session)
    (file : Option (List CsvRow)) (user_text : String) : HandleResult :=
  match route sess.pending_checkin (pyStrip user_text) with
  | Route.greeting =>
      ⟨⟨histWithUser sess (pyStrip user_text) ++ [⟨"assistant", greetingReply⟩],
         sess.pending_checkin⟩, file, greetingReply, false⟩
  | Route.moodHit m =>
      ⟨⟨histWithUser sess (pyStrip user_text) ++ [⟨"assistant", MOOD_RESPONSES m⟩],
         sess.pending_checkin⟩, file, MOOD_RESPONSES m, false⟩
  | Route.checkinStart =>
      ⟨⟨histWithUser sess (pyStrip user_text) ++ [⟨"assistant", checkinPrompt⟩],
         true⟩, file, checkinPrompt, false⟩
  | Route.checkinAnswer =>
      match pyIntParse (pyStrip user_text) with
      | some score =>
          if 1 ≤ score ∧ score ≤ 10 then
            ⟨⟨histWithUser sess (pyStrip user_text) ++ [⟨"assistant", ackReply score⟩],
               false⟩, some (log_mood_to_csv ts score file), ackReply score, false⟩
          else
            ⟨⟨histWithUser sess (pyStrip user_text) ++ [⟨"assistant", repromptReply⟩],
               sess.pending_checkin⟩, file, repromptReply, false⟩
      | none =>
          ⟨⟨histWithUser sess (pyStrip user_text) ++ [⟨"assistant", repromptReply⟩],
             sess.pending_checkin⟩, file, repromptReply, false⟩
  | Route.freeform =>
      if cfg.clientPresent then
        match cfg.gatewayResponse with
        | Except.ok content =>
            ⟨⟨histWithUser sess (pyStrip user_text) ++
                [⟨"assistant", gatewayReply content⟩],
               sess.pending_checkin⟩, file, gatewayReply content, true⟩
        | Except.error _ =>
            ⟨⟨histWithUser sess (pyStrip user_text), sess.pending_checkin⟩,
              file, gatewayErrorShown, true⟩
      else
        ⟨⟨histWithUser sess (pyStrip user_text) ++ [⟨"assistant", missingKeyReply⟩],
           sess.pending_checkin⟩, file, missingKeyReply, false⟩

/-- Run a sequence of `log_mood_to_csv` appends, each with its own
clock reading, starting from a given file state. -/
def runAppends (entries : List (Nat × Int)) (file : Option (List CsvRow)) :
    Option (List CsvRow) :=
  entries.foldl (fun f e => some (log_mood_to_csv e.1 e.2 f)) file

/-- Timestamp of a mood-log row, when it is a record. -/
def rowTs : CsvRow → Option Nat
  | CsvRow.header => none
  | CsvRow.record ts _ => some ts

/-- Rows already present in (or created for) the log file before an
append: the existing rows, or the fresh header when the file is new. -/
def oldRows (file : Option (List CsvRow)) : List CsvRow :=
  match file with
  | none => [CsvRow.header]
  | some rows => rows

theorem log_mood_to_csv_eq (ts : Nat) (score : Int) (file : Option (List CsvRow)) :
    log_mood_to_csv ts score file = oldRows file ++ [CsvRow.record ts score] := rfl

theorem route_true_ne_freeform (text : String) :
    route true text ≠ Route.freeform := by
  unfold route
  split
  · simp
  · split
    · simp
    · split <;> simp

theorem handle_greeting_eq (cfg : Config) (ts : Nat) (sess : Session)
    (file : Option (List CsvRow)) (msg : String)
    (hr : route sess.pending_checkin (pyStrip msg) = Route.greeting) :
    handle_message cfg ts sess file msg =
      ⟨⟨histWithUser sess (pyStrip msg) ++[⟨"assistant", greetingReply⟩],
         sess.pending_checkin⟩, file, greetingReply, false⟩ := by
  unfold handle_message
  rw [hr]

theorem handle_moodHit_eq (cfg : Config) (ts : Nat) (sess : Session)
    (file : Option (List CsvRow)) (msg : String) (m : String)
    (hr : route sess.pending_checkin (pyStrip msg) = Route.moodHit m) :
    handle_message cfg ts sess file msg =
      ⟨⟨histWithUser sess (pyStrip msg) ++[⟨"assistant", MOOD_RESPONSES m⟩],
         sess.pending_checkin⟩, file, MOOD_RESPONSES m, false⟩ := by
  unfold handle_message
  rw [hr]

theorem handle_checkinStart_eq (cfg : Config) (ts : Nat) (sess : Session)
    (file : Option (List CsvRow)) (msg : String)
    (hr : route sess.pending_checkin (pyStrip msg) = Route.checkinStart) :
    handle_message cfg ts sess file msg =
      ⟨⟨histWithUser sess (pyStrip msg) ++[⟨"assistant", checkinPrompt⟩],
         true⟩, file, checkinPrompt, false⟩ := by
  unfold handle_message
  rw [hr]

theorem handle_answer_ok_eq (cfg : Config) (ts : Nat) (sess : Session)
    (file : Option (List CsvRow)) (msg : String) (score : Int)
    (hr : route sess.pending_checkin (pyStrip msg) = Route.checkinAnswer)
    (hp : pyIntParse (pyStrip msg) = some score)
    (hlo : 1 ≤ score) (hhi : score ≤ 10) :
    handle_message cfg ts sess file msg =
      ⟨⟨histWithUser sess (pyStrip msg) ++[⟨"assistant", ackReply score⟩],
         false⟩, some (log_mood_to_csv ts score file), ackReply score, false⟩ := by
  unfold handle_message
  rw [hr, hp]
  dsimp only
  rw [if_pos ⟨hlo, hhi⟩]

theorem handle_answer_bad_eq (cfg : Config) (ts : Nat) (sess : Session)
    (file : Option (List CsvRow)) (msg : String)
    (hr : route sess.pending_checkin (pyStrip msg) = Route.checkinAnswer)
    (hbad : ∀ x : Int, pyIntParse (pyStrip msg) = some x → ¬(1 ≤ x ∧ x ≤ 10)) :
    handle_message cfg ts sess file msg =
      ⟨⟨histWithUser sess (pyStrip msg) ++[⟨"assistant", repromptReply⟩],
         sess.pending_checkin⟩, file, repromptReply, false⟩ := by
  unfold handle_message
  rw [hr]
  cases hp : pyIntParse (pyStrip msg) with
  | none => rfl
  | some x =>
      dsimp only
      rw [if_neg (hbad x hp)]

theorem handle_freeform_noclient_eq (cfg : Config) (ts : Nat) (sess : Session)
    (file : Option (List CsvRow)) (msg : String)
    (hr : route sess.pending_checkin (pyStrip msg) = Route.freeform)
    (hc : cfg.clientPresent = false) :
    handle_message cfg ts sess file msg =
      ⟨⟨histWithUser sess (pyStrip msg) ++[⟨"assistant", missingKeyReply⟩],
         sess.pending_checkin⟩, file, missingKeyReply, false⟩ := by
  unfold handle_message
  rw [hr, hc]
  rfl

theorem handle_freeform_error_eq (cfg : Config) (ts : Nat) (sess : Session)
    (file : Option (List CsvRow)) (msg : String)
    (hr : route sess.pending_checkin (pyStrip msg) = Route.freeform)
    (hc : cfg.clientPresent = true)
    (he : cfg.gatewayResponse = Except.error ()) :
    handle_message cfg ts sess file msg =
      ⟨⟨histWithUser sess (pyStrip msg), sess.pending_checkin⟩,
        file, gatewayErrorShown, true⟩ := by
  unfold handle_message
  rw [hr, hc, he]
  rfl

/-- Does any phrase of the table occur in the lower-cased text? -/
def tableHit (phrases : List String) (text : String) : Bool :=
  phrases.any (fun p => pyIn p (pyLower text))

theorem runAppends_some (entries : List (Nat × Int)) (rows : List CsvRow) :
    runAppends entries (some rows) =
      some (rows ++ entries.map (fun e => CsvRow.record e.1 e.2)) := by
  induction entries generalizing rows with
  | nil => simp [runAppends]
  | cons e es ih =>
      show runAppends es (some (rows ++ [CsvRow.record e.1 e.2])) = _
      rw [ih]
      simp

theorem filterMap_rowTs_records (entries : List (Nat × Int)) :
    (entries.map (fun e => CsvRow.record e.1 e.2)).filterMap rowTs =
      entries.map Prod.fst := by
  induction entries with
  | nil => rfl
  | cons e es ih => simp [List.filterMap_cons, rowTs, ih]

/-- C5: `detect_mood` lower-cases its input, tests substring containment
of the phrase tables in the fixed order stress, anxiety, sad, tired, and
returns the first tag whose table matches (ties between tags resolved by
table order), or `none` when no phrase matches; as a Lean function it is
pure and deterministic. -/
theorem detect_mood_first_match (text : String) :
    detect_mood text =
      (if tableHit stressPhrases text then some "stress"
       else if tableHit anxietyPhrases text then some "anxiety"
       else if tableHit sadPhrases text then some "sad"
       else if tableHit tiredPhrases text then some "tired"
       else none) := by
  unfold detect_mood mood_map tableHit
  cases h1 : stressPhrases.any (fun p => pyIn p (pyLower text)) <;>
  cases h2 : anxietyPhrases.any (fun p => pyIn p (pyLower text)) <;>
  cases h3 : sadPhrases.any (fun p => pyIn p (pyLower text)) <;>
  cases h4 : tiredPhrases.any (fun p => pyIn p (pyLower text)) <;>
  simp [List.find?, h1, h2, h3, h4]

/-- C7: starting from a missing log file, appending a nonempty sequence
of scores under a non-decreasing clock yields the header exactly once
followed by the records in append order with matching scores and
non-decreasing timestamps; appends onto an existing file only extend it
and write no header. -/
theorem mood_log_roundtrip (entries : List (Nat × Int))
    (hne : entries ≠ [])
    (hmono : List.Chain' (fun a b => a ≤ b) (entries.map Prod.fst)) :
    runAppends entries none =
        some (CsvRow.header :: entries.map (fun e => CsvRow.record e.1 e.2)) ∧
    (∀ r ∈ entries.map (fun e => CsvRow.record e.1 e.2), r ≠ CsvRow.header) ∧
    List.Chain' (fun a b => a ≤ b)
      ((CsvRow.header :: entries.map (fun e => CsvRow.record e.1 e.2)).filterMap rowTs) ∧
    (∀ rows : List CsvRow, runAppends entries (some rows) =
        some (rows ++ entries.map (fun e => CsvRow.record e.1 e.2))) := by
  refine ⟨?_, ?_, ?_, fun rows => runAppends_some entries rows⟩
  · cases entries with
    | nil => exact absurd rfl hne
    | cons e es =>
        show runAppends es (some ([CsvRow.header] ++ [CsvRow.record e.1 e.2])) = _
        rw [runAppends_some]
        rfl
  · intro r hr
    rcases List.mem_map.mp hr with ⟨e, _, rfl⟩
    simp
  · have h : (CsvRow.header :: entries.map (fun e => CsvRow.record e.1 e.2)).filterMap rowTs
        = entries.map Prod.fst := filterMap_rowTs_records entries
    rw [h]
    exact hmono

/-- Witness for C7 at three concrete appends. -/
theorem mood_log_roundtrip_witness :
    (([((0 : Nat), (3 : Int)), (1, 7), (1, 10)] : List (Nat × Int)) ≠ []) ∧
    (List.Chain' (fun a b => a ≤ b)
      (([((0 : Nat), (3 : Int)), (1, 7), (1, 10)] : List (Nat × Int)).map Prod.fst)) ∧
    (runAppends [((0 : Nat), (3 : Int)), (1, 7), (1, 10)] none =
        some (CsvRow.header ::
          ([((0 : Nat), (3 : Int)), (1, 7), (1, 10)] : List (Nat × Int)).map
            (fun e => CsvRow.record e.1 e.2)) ∧
     (∀ r ∈ ([((0 : Nat), (3 : Int)), (1, 7), (1, 10)] : List (Nat × Int)).map
            (fun e => CsvRow.record e.1 e.2), r ≠ CsvRow.header) ∧
     List.Chain' (fun a b => a ≤ b)
       ((CsvRow.header ::
          ([((0 : Nat), (3 : Int)), (1, 7), (1, 10)] : List (Nat × Int)).map
            (fun e => CsvRow.record e.1 e.2)).filterMap rowTs) ∧
     (∀ rows : List CsvRow, runAppends [((0 : Nat), (3 : Int)), (1, 7), (1, 10)] (some rows) =
        some (rows ++ ([((0 : Nat), (3 : Int)), (1, 7), (1, 10)] : List (Nat × Int)).map
            (fun e => CsvRow.record e.1 e.2)))) :=
  ⟨by decide, by simp [List.chain'_cons],
    mood_log_roundtrip [((0 : Nat), (3 : Int)), (1, 7), (1, 10)] (by decide)
      (by simp [List.chain'_cons])⟩

/-- C8: a message that strips and lower-cases to one of the greeting
literals takes the greeting quick path before the mood, check-in,
numeric-answer and gateway logic: fixed greeting reply, pending flag,
log file and gateway untouched. -/
theorem greeting_quick_path (cfg : Config) (ts : Nat) (sess : Session)
    (file : Option (List CsvRow)) (msg : String)
    (h : pyLower (pyStrip msg) = "hi" ∨ pyLower (pyStrip msg) = "hello" ∨
         pyLower (pyStrip msg) = "hey") :
    route sess.pending_checkin (pyStrip msg) = Route.greeting ∧
    (handle_message cfg ts sess file msg).shown = greetingReply ∧
    (handle_message cfg ts sess file msg).session.pending_checkin = sess.pending_checkin ∧
    (handle_message cfg ts sess file msg).file = file ∧
    (handle_message cfg ts sess file msg).gatewayCalled = false := by
  have hr : route sess.pending_checkin (pyStrip msg) = Route.greeting := by
    unfold route
    rw [if_pos h]
  rw [handle_greeting_eq cfg ts sess file msg hr]
  exact ⟨hr, rfl, rfl, rfl, rfl⟩

/-- Witness for C8 on a mixed-case padded greeting while a check-in is
pending. -/
theorem greeting_quick_path_witness :
    (pyLower (pyStrip "  HeLLo  ") = "hi" ∨ pyLower (pyStrip "  HeLLo  ") = "hello" ∨
     pyLower (pyStrip "  HeLLo  ") = "hey") ∧
    (route true (pyStrip "  HeLLo  ") = Route.greeting ∧
     (handle_message ⟨true, Except.error ()⟩ 0 ⟨[], true⟩ (some [CsvRow.header]) "  HeLLo  ").shown = greetingReply ∧
     (handle_message ⟨true, Except.error ()⟩ 0 ⟨[], true⟩ (some [CsvRow.header]) "  HeLLo  ").session.pending_checkin = true ∧
     (handle_message ⟨true, Except.error ()⟩ 0 ⟨[], true⟩ (some [CsvRow.header]) "  HeLLo  ").file = some [CsvRow.header] ∧
     (handle_message ⟨true, Except.error ()⟩ 0 ⟨[], true⟩ (some [CsvRow.header]) "  HeLLo  ").gatewayCalled = false) :=
  ⟨by decide,
    greeting_quick_path ⟨true, Except.error ()⟩ 0 ⟨[], true⟩ (some [CsvRow.header]) "  HeLLo  " (by decide)⟩

theorem listStartsWith_nil (t : List Char) : listStartsWith t [] = true := by
  cases t <;> rfl

theorem listStartsWith_self (p b : List Char) :
    listStartsWith (p ++ b) p = true := by
  induction p with
  | nil => exact listStartsWith_nil b
  | cons c cs ih => simp [listStartsWith, ih]

theorem listContains_nil_pat (t : List Char) : listContains t [] = true := by
  cases t <;> simp [listContains, listStartsWith]

theorem listContains_self_append (p b : List Char) :
    listContains (p ++ b) p = true := by
  cases p with
  | nil => exact listContains_nil_pat _
  | cons c cs =>
      simp [listContains]
      exact Or.inl (listStartsWith_self (c :: cs) b)

theorem listContains_prepend (a t p : List Char) (h : listContains t p = true) :
    listContains (a ++ t) p = true := by
  induction a with
  | nil => exact h
  | cons c cs ih => simp [listContains, ih]

theorem pyIn_sandwich (a p b : String) : pyIn p (a ++ p ++ b) = true := by
  unfold pyIn
  rw [String.data_append, String.data_append, List.append_assoc]
  exact listContains_prepend a.data (p.data ++ b.data) p.data
    (listContains_self_append p.data b.data)

theorem gatewayCalled_false_of_ne_freeform (cfg : Config) (ts : Nat)
    (sess : Session) (file : Option (List CsvRow)) (msg : String)
    (hne : route sess.pending_checkin (pyStrip msg) ≠ Route.freeform) :
    (handle_message cfg ts sess file msg).gatewayCalled = false := by
  cases hr : route sess.pending_checkin (pyStrip msg) with
  | greeting => rw [handle_greeting_eq cfg ts sess file msg hr]
  | moodHit m => rw [handle_moodHit_eq cfg ts sess file msg m hr]
  | checkinStart => rw [handle_checkinStart_eq cfg ts sess file msg hr]
  | checkinAnswer =>
      cases hp : pyIntParse (pyStrip msg) with
      | none =>
          rw [handle_answer_bad_eq cfg ts sess file msg hr
            (fun x hx => absurd (hp ▸ hx) (by simp))]
      | some x =>
          by_cases hx : 1 ≤ x ∧ x ≤ 10
          · rw [handle_answer_ok_eq cfg ts sess file msg x hr hp hx.1 hx.2]
          · have hbad : ∀ y : Int, pyIntParse (pyStrip msg) = some y →
                ¬(1 ≤ y ∧ y ≤ 10) := by
              intro y hy
              rw [hp] at hy
              obtain rfl := Option.some.inj hy
              exact hx
            rw [handle_answer_bad_eq cfg ts sess file msg hr hbad]
  | freeform => exact absurd hr hne

theorem handle_config_independent (cfg cfg' : Config) (ts : Nat)
    (sess : Session) (file : Option (List CsvRow)) (msg : String)
    (hne : route sess.pending_checkin (pyStrip msg) ≠ Route.freeform) :
    handle_message cfg ts sess file msg = handle_message cfg' ts sess file msg := by
  cases hr : route sess.pending_checkin (pyStrip msg) with
  | greeting =>
      rw [handle_greeting_eq cfg ts sess file msg hr,
        handle_greeting_eq cfg' ts sess file msg hr]
  | moodHit m =>
      rw [handle_moodHit_eq cfg ts sess file msg m hr,
        handle_moodHit_eq cfg' ts sess file msg m hr]
  | checkinStart =>
      rw [handle_checkinStart_eq cfg ts sess file msg hr,
        handle_checkinStart_eq cfg' ts sess file msg hr]
  | checkinAnswer =>
      cases hp : pyIntParse (pyStrip msg) with
      | none =>
          have hbad : ∀ y : Int, pyIntParse (pyStrip msg) = some y →
              ¬(1 ≤ y ∧ y ≤ 10) := fun y hy => absurd (hp ▸ hy) (by simp)
          rw [handle_answer_bad_eq cfg ts sess file msg hr hbad,
            handle_answer_bad_eq cfg' ts sess file msg hr hbad]
      | some x =>
          by_cases hx : 1 ≤ x ∧ x ≤ 10
          · rw [handle_answer_ok_eq cfg ts sess file msg x hr hp hx.1 hx.2,
              handle_answer_ok_eq cfg' ts sess file msg x hr hp hx.1 hx.2]
          · have hbad : ∀ y : Int, pyIntParse (pyStrip msg) = some y →
                ¬(1 ≤ y ∧ y ≤ 10) := by
              intro y hy
              rw [hp] at hy
              obtain rfl := Option.some.inj hy
              exact hx
            rw [handle_answer_bad_eq cfg ts sess file msg hr hbad,
              handle_answer_bad_eq cfg' ts sess file msg hr hbad]
  | freeform => exact absurd hr hne

/-- C3: every integer x in [1,10], submitted as its decimal numeral
while a check-in is pending, appends exactly one record with score x to
the log, acknowledges with the fixed reply containing x, and clears the
pending flag. -/
theorem valid_score_logged (cfg : Config) (ts : Nat) (sess : Session)
    (file : Option (List CsvRow)) (x : Int)
    (hpend : sess.pending_checkin = true) (hlo : 1 ≤ x) (hhi : x ≤ 10) :
    (handle_message cfg ts sess file (toString x)).file =
      some (oldRows file ++ [CsvRow.record ts x]) ∧
    (handle_message cfg ts sess file (toString x)).shown = ackReply x ∧
    pyIn (toString x) ((handle_message cfg ts sess file (toString x)).shown) = true ∧
    (handle_message cfg ts sess file (toString x)).session.pending_checkin = false := by
  have hr : route sess.pending_checkin (pyStrip (toString x)) = Route.checkinAnswer := by
    rw [hpend]
    interval_cases x <;> decide
  have hp : pyIntParse (pyStrip (toString x)) = some x := by
    interval_cases x <;> decide
  rw [handle_answer_ok_eq cfg ts sess file (toString x) x hr hp hlo hhi]
  exact ⟨rfl, rfl,
    pyIn_sandwich "Thanks — I’ve logged your mood as **" (toString x)
      "/10**. If you’d like, tell me what’s driving that score and I’ll suggest next steps.",
    rfl⟩

/-- Witness for C3 at score 7 on a missing log file. -/
theorem valid_score_logged_witness :
    ((1 : Int) ≤ 7 ∧ (7 : Int) ≤ 10) ∧
    ((handle_message ⟨true, Except.error ()⟩ 5 ⟨[], true⟩ none (toString (7 : Int))).file =
        some (oldRows none ++ [CsvRow.record 5 7]) ∧
     (handle_message ⟨true, Except.error ()⟩ 5 ⟨[], true⟩ none (toString (7 : Int))).shown =
        ackReply 7 ∧
     pyIn (toString (7 : Int))
        ((handle_message ⟨true, Except.error ()⟩ 5 ⟨[], true⟩ none (toString (7 : Int))).shown) = true ∧
     (handle_message ⟨true, Except.error ()⟩ 5 ⟨[], true⟩ none
        (toString (7 : Int))).session.pending_checkin = false) :=
  ⟨⟨by decide, by decide⟩,
    valid_score_logged ⟨true, Except.error ()⟩ 5 ⟨[], true⟩ none 7 rfl (by decide) (by decide)⟩

/-- C4 counterexample: while a check-in is pending, the message "hello"
is not parseable as an integer, yet the handler emits the greeting
reply, not the fixed re-prompt the claim requires. -/
theorem invalid_answer_greeting_cx :
    pyIntParse (pyStrip "hello") = none ∧
    (handle_message ⟨true, Except.error ()⟩ 0 ⟨[], true⟩ none "hello").shown = greetingReply ∧
    (handle_message ⟨true, Except.error ()⟩ 0 ⟨[], true⟩ none "hello").shown ≠ repromptReply :=
  ⟨by decide, by decide, by decide⟩

/-- C4 amended: while a check-in is pending, a message that reaches the
numeric-answer branch (not a greeting literal, no mood phrase, not a
check-in request) and does not parse to an integer in [1,10] gets the
fixed re-prompt, keeps the pending flag set, and appends no log
record. -/
theorem invalid_answer_reprompt (cfg : Config) (ts : Nat) (sess : Session)
    (file : Option (List CsvRow)) (msg : String)
    (hpend : sess.pending_checkin = true)
    (hr : route true (pyStrip msg) = Route.checkinAnswer)
    (hbad : ∀ x : Int, pyIntParse (pyStrip msg) = some x → ¬(1 ≤ x ∧ x ≤ 10)) :
    (handle_message cfg ts sess file msg).shown = repromptReply ∧
    (handle_message cfg ts sess file msg).session.pending_checkin = true ∧
    (handle_message cfg ts sess file msg).file = file ∧
    (handle_message cfg ts sess file msg).session.history =
      histWithUser sess (pyStrip msg) ++ [⟨"assistant", repromptReply⟩] := by
  have hr' : route sess.pending_checkin (pyStrip msg) = Route.checkinAnswer := by
    rw [hpend]
    exact hr
  rw [handle_answer_bad_eq cfg ts sess file msg hr' hbad]
  exact ⟨rfl, hpend, rfl, rfl⟩

/-- Witness for C4 on the out-of-range answer "11". -/
theorem invalid_answer_reprompt_witness :
    ((true : Bool) = true ∧ route true (pyStrip "11") = Route.checkinAnswer ∧
      (∀ x : Int, pyIntParse (pyStrip "11") = some x → ¬(1 ≤ x ∧ x ≤ 10))) ∧
    ((handle_message ⟨true, Except.error ()⟩ 0 ⟨[], true⟩ (some [CsvRow.header]) "11").shown =
        repromptReply ∧
     (handle_message ⟨true, Except.error ()⟩ 0 ⟨[], true⟩
        (some [CsvRow.header]) "11").session.pending_checkin = true ∧
     (handle_message ⟨true, Except.error ()⟩ 0 ⟨[], true⟩ (some [CsvRow.header]) "11").file =
        some [CsvRow.header] ∧
     (handle_message ⟨true, Except.error ()⟩ 0 ⟨[], true⟩
        (some [CsvRow.header]) "11").session.history =
        histWithUser ⟨[], true⟩ (pyStrip "11") ++ [⟨"assistant", repromptReply⟩]) := by
  have hb : ∀ x : Int, pyIntParse (pyStrip "11") = some x → ¬(1 ≤ x ∧ x ≤ 10) := by
    intro x hx
    rw [show pyIntParse (pyStrip "11") = some 11 from by decide] at hx
    obtain rfl := Option.some.inj hx
    decide
  exact ⟨⟨rfl, by decide, hb⟩,
    invalid_answer_reprompt ⟨true, Except.error ()⟩ 0 ⟨[], true⟩ (some [CsvRow.header]) "11"
      rfl (by decide) hb⟩

/-- C6: when the DeepSeek call raises, the user sees the fixed error
message, the history still contains the originating user message and
gains no assistant entry, no log record is written, the pending flag is
unchanged, and the handler still ends with a nonempty user-visible
output. -/
theorem gateway_error_recovery (cfg : Config) (ts : Nat) (sess : Session)
    (file : Option (List CsvRow)) (msg : String)
    (hc : cfg.clientPresent = true)
    (he : cfg.gatewayResponse = Except.error ())
    (hr : route sess.pending_checkin (pyStrip msg) = Route.freeform) :
    (handle_message cfg ts sess file msg).shown = gatewayErrorShown ∧
    (handle_message cfg ts sess file msg).session.history =
      sess.history ++ [⟨"user", pyStrip msg⟩] ∧
    (⟨"user", pyStrip msg⟩ : Message) ∈ (handle_message cfg ts sess file msg).session.history ∧
    (handle_message cfg ts sess file msg).file = file ∧
    (handle_message cfg ts sess file msg).session.pending_checkin = sess.pending_checkin ∧
    (handle_message cfg ts sess file msg).shown ≠ "" := by
  rw [handle_freeform_error_eq cfg ts sess file msg hr hc he]
  refine ⟨rfl, rfl, ?_, rfl, rfl, ?_⟩
  · simp [histWithUser]
  · show gatewayErrorShown ≠ ""
    decide

/-- Witness for C6 on a free-form policy question with a raising
gateway. -/
theorem gateway_error_recovery_witness :
    ((true : Bool) = true ∧
     (Except.error () : Except Unit (Option String)) = Except.error () ∧
     route false (pyStrip "what are my working hours") = Route.freeform) ∧
    ((handle_message ⟨true, Except.error ()⟩ 9 ⟨[], false⟩ (some [CsvRow.header])
        "what are my working hours").shown = gatewayErrorShown ∧
     (handle_message ⟨true, Except.error ()⟩ 9 ⟨[], false⟩ (some [CsvRow.header])
        "what are my working hours").session.history =
        [] ++ [⟨"user", pyStrip "what are my working hours"⟩] ∧
     (⟨"user", pyStrip "what are my working hours"⟩ : Message) ∈
        (handle_message ⟨true, Except.error ()⟩ 9 ⟨[], false⟩ (some [CsvRow.header])
          "what are my working hours").session.history ∧
     (handle_message ⟨true, Except.error ()⟩ 9 ⟨[], false⟩ (some [CsvRow.header])
        "what are my working hours").file = some [CsvRow.header] ∧
     (handle_message ⟨true, Except.error ()⟩ 9 ⟨[], false⟩ (some [CsvRow.header])
        "what are my working hours").session.pending_checkin = false ∧
     (handle_message ⟨true, Except.error ()⟩ 9 ⟨[], false⟩ (some [CsvRow.header])
        "what are my working hours").shown ≠ "") :=
  ⟨⟨rfl, rfl, by decide⟩,
    gateway_error_recovery ⟨true, Except.error ()⟩ 9 ⟨[], false⟩ (some [CsvRow.header])
      "what are my working hours" rfl rfl (by decide)⟩

/-- C9: with no API key configured no completion request is ever
issued; a free-form message reaching the gateway step gets the fixed
missing-key reply with state and log untouched, while the behaviour of
every non-gateway route is independent of the configuration. -/
theorem missing_key_no_call (cfg : Config) (ts : Nat) (sess : Session)
    (file : Option (List CsvRow)) (msg : String)
    (hc : cfg.clientPresent = false)
    (hr : route sess.pending_checkin (pyStrip msg) = Route.freeform) :
    (handle_message cfg ts sess file msg).gatewayCalled = false ∧
    (handle_message cfg ts sess file msg).shown = missingKeyReply ∧
    (handle_message cfg ts sess file msg).file = file ∧
    (handle_message cfg ts sess file msg).session.pending_checkin = sess.pending_checkin ∧
    (∀ cfg' : Config, ∀ msg' : String,
        route sess.pending_checkin (pyStrip msg') ≠ Route.freeform →
          handle_message cfg ts sess file msg' = handle_message cfg' ts sess file msg') := by
  rw [handle_freeform_noclient_eq cfg ts sess file msg hr hc]
  exact ⟨rfl, rfl, rfl, rfl,
    fun cfg' msg' hne => handle_config_independent cfg cfg' ts sess file msg' hne⟩

/-- Witness for C9 on a free-form question with no client configured. -/
theorem missing_key_no_call_witness :
    ((false : Bool) = false ∧
     route false (pyStrip "how do i request leave") = Route.freeform) ∧
    ((handle_message ⟨false, Except.ok none⟩ 2 ⟨[], false⟩ none
        "how do i request leave").gatewayCalled = false ∧
     (handle_message ⟨false, Except.ok none⟩ 2 ⟨[], false⟩ none
        "how do i request leave").shown = missingKeyReply ∧
     (handle_message ⟨false, Except.ok none⟩ 2 ⟨[], false⟩ none
        "how do i request leave").file = none ∧
     (handle_message ⟨false, Except.ok none⟩ 2 ⟨[], false⟩ none
        "how do i request leave").session.pending_checkin = false ∧
     (∀ cfg' : Config, ∀ msg' : String,
        route false (pyStrip msg') ≠ Route.freeform →
          handle_message ⟨false, Except.ok none⟩ 2 ⟨[], false⟩ none msg' =
            handle_message cfg' 2 ⟨[], false⟩ none msg')) :=
  ⟨⟨rfl, by decide⟩,
    missing_key_no_call ⟨false, Except.ok none⟩ 2 ⟨[], false⟩ none
      "how do i request leave" rfl (by decide)⟩

/-- C2 counterexample: "tired, mood check" contains a check-in phrase,
yet processing it leaves pending_checkin false and answers with the
mood reply, because the mood classifier is consulted first. -/
theorem checkin_vs_mood_priority_cx :
    is_checkin_request (pyStrip "tired, mood check") = true ∧
    detect_mood (pyStrip "tired, mood check") = some "tired" ∧
    (handle_message ⟨true, Except.error ()⟩ 0 ⟨[], false⟩ none
      "tired, mood check").session.pending_checkin = false ∧
    (handle_message ⟨true, Except.error ()⟩ 0 ⟨[], false⟩ none
      "tired, mood check").shown = MOOD_RESPONSES "tired" ∧
    MOOD_RESPONSES "tired" ≠ checkinPrompt :=
  ⟨by decide, by decide, by decide, by decide, by decide⟩

/-- C2 amended: a message containing a check-in phrase sets
pending_checkin and gets the fixed 1-10 prompt provided it is not a
greeting literal and contains no mood phrase; the mood classifier is
consulted before the check-in detector, so a mood keyword in the same
message wins instead. -/
theorem checkin_request_sets_flag (cfg : Config) (ts : Nat) (sess : Session)
    (file : Option (List CsvRow)) (msg : String)
    (hchk : is_checkin_request (pyStrip msg) = true)
    (hmood : detect_mood (pyStrip msg) = none)
    (hgreet : ¬(pyLower (pyStrip msg) = "hi" ∨ pyLower (pyStrip msg) = "hello" ∨
        pyLower (pyStrip msg) = "hey")) :
    (handle_message cfg ts sess file msg).session.pending_checkin = true ∧
    (handle_message cfg ts sess file msg).shown = checkinPrompt := by
  have hr : route sess.pending_checkin (pyStrip msg) = Route.checkinStart := by
    unfold route
    rw [if_neg hgreet, hmood]
    simp [hchk]
  rw [handle_checkinStart_eq cfg ts sess file msg hr]
  exact ⟨rfl, rfl⟩

/-- Witness for C2 on the plain request "check in". -/
theorem checkin_request_sets_flag_witness :
    (is_checkin_request (pyStrip "check in") = true ∧
     detect_mood (pyStrip "check in") = none ∧
     ¬(pyLower (pyStrip "check in") = "hi" ∨ pyLower (pyStrip "check in") = "hello" ∨
        pyLower (pyStrip "check in") = "hey")) ∧
    ((handle_message ⟨true, Except.error ()⟩ 0 ⟨[], false⟩ none
        "check in").session.pending_checkin = true ∧
     (handle_message ⟨true, Except.error ()⟩ 0 ⟨[], false⟩ none "check in").shown =
        checkinPrompt) :=
  ⟨⟨by decide, by decide, by decide⟩,
    checkin_request_sets_flag ⟨true, Except.error ()⟩ 0 ⟨[], false⟩ none "check in"
      (by decide) (by decide) (by decide)⟩

/-- C1 counterexample: with pending_checkin true, the message "tired"
is still passed to the mood classifier and answered as a mood hit, not
treated as a numeric check-in answer attempt. -/
theorem pending_classifier_cx :
    detect_mood (pyStrip "tired") = some "tired" ∧
    route true (pyStrip "tired") = Route.moodHit "tired" ∧
    route true (pyStrip "tired") ≠ Route.checkinAnswer ∧
    (handle_message ⟨true, Except.error ()⟩ 0 ⟨[], true⟩ none "tired").shown =
      MOOD_RESPONSES "tired" ∧
    (handle_message ⟨true, Except.error ()⟩ 0 ⟨[], true⟩ none
      "tired").session.pending_checkin = true :=
  ⟨by decide, by decide, by decide, by decide, by decide⟩

/-- C1 amended: while pending_checkin is true no message is ever
delegated to the gateway, and a message is treated as a numeric answer
attempt exactly when it first fails the greeting, mood-classifier and
check-in-detector checks, which are still consulted first. -/
theorem pending_checkin_gateway_block (cfg : Config) (ts : Nat) (sess : Session)
    (file : Option (List CsvRow)) (msg : String)
    (hpend : sess.pending_checkin = true) :
    (handle_message cfg ts sess file msg).gatewayCalled = false ∧
    (¬(pyLower (pyStrip msg) = "hi" ∨ pyLower (pyStrip msg) = "hello" ∨
        pyLower (pyStrip msg) = "hey") →
      detect_mood (pyStrip msg) = none →
      is_checkin_request (pyStrip msg) = false →
      route sess.pending_checkin (pyStrip msg) = Route.checkinAnswer) := by
  constructor
  · exact gatewayCalled_false_of_ne_freeform cfg ts sess file msg
      (by rw [hpend]; exact route_true_ne_freeform _)
  · intro hg hm hc
    rw [hpend]
    unfold route
    rw [if_neg hg, hm]
    simp [hc]

/-- Witness for C1 on the non-matching pending answer "7.5". -/
theorem pending_checkin_gateway_block_witness :
    ((true : Bool) = true) ∧
    ((handle_message ⟨true, Except.error ()⟩ 0 ⟨[], true⟩ none "7.5").gatewayCalled = false ∧
     (¬(pyLower (pyStrip "7.5") = "hi" ∨ pyLower (pyStrip "7.5") = "hello" ∨
         pyLower (pyStrip "7.5") = "hey") →
       detect_mood (pyStrip "7.5") = none →
       is_checkin_request (pyStrip "7.5") = false →
       route true (pyStrip "7.5") = Route.checkinAnswer)) :=
  ⟨rfl, pending_checkin_gateway_block ⟨true, Except.error ()⟩ 0 ⟨[], true⟩ none "7.5" rfl⟩

/-- Characters that can occur in a string accepted by `pyIntParse`:
whitespace, a sign, an underscore, or an ASCII digit. -/
def numChar (c : Char) : Bool :=
  isPyWs c || c = '+' || c = '-' || c = '_' || isAsciiDigit c

theorem parseDigitsAux_chars : ∀ (k : Nat) (cs : List Char), cs.length ≤ k →
    ∀ acc n, parseDigitsAux acc cs = some n →
    ∀ c ∈ cs, isAsciiDigit c = true ∨ c = '_' := by
  intro k
  induction k with
  | zero =>
      intro cs hlen acc n hp c hc
      rw [List.length_eq_zero.mp (Nat.le_zero.mp hlen)] at hc
      cases hc
  | succ k ih =>
      intro cs hlen acc n hp c hc
      cases cs with
      | nil => cases hc
      | cons a cs' =>
          unfold parseDigitsAux at hp
          by_cases ha : isAsciiDigit a = true
          · rw [if_pos ha] at hp
            rcases List.mem_cons.mp hc with rfl | hc'
            · exact Or.inl ha
            · exact ih cs' (Nat.le_of_succ_le_succ hlen) _ n hp c hc'
          · rw [if_neg ha] at hp
            by_cases hu : a = '_'
            · rw [if_pos hu] at hp
              cases cs' with
              | nil =>
                  dsimp only at hp
                  exact absurd hp (by simp)
              | cons d cs'' =>
                  dsimp only at hp
                  by_cases hd : isAsciiDigit d = true
                  · rw [if_pos hd] at hp
                    rcases List.mem_cons.mp hc with rfl | hc'
                    · exact Or.inr hu
                    · rcases List.mem_cons.mp hc' with rfl | hc''
                      · exact Or.inl hd
                      · exact ih cs''
                          (Nat.le_of_succ_le (Nat.le_of_succ_le_succ hlen)) _ n hp c hc''
                  · rw [if_neg hd] at hp
                    exact absurd hp (by simp)
            · rw [if_neg hu] at hp
              exact absurd hp (by simp)

theorem parseDigits_chars (cs : List Char) (n : Nat) (hp : parseDigits cs = some n) :
    ∀ c ∈ cs, isAsciiDigit c = true ∨ c = '_' := by
  cases cs with
  | nil => intro c hc; cases hc
  | cons a cs' =>
      intro c hc
      simp only [parseDigits] at hp
      by_cases ha : isAsciiDigit a = true
      · rw [if_pos ha] at hp
        rcases List.mem_cons.mp hc with rfl | hc'
        · exact Or.inl ha
        · exact parseDigitsAux_chars cs'.length cs' le_rfl _ n hp c hc'
      · rw [if_neg ha] at hp
        exact absurd hp (by simp)

theorem pyStripList_split (l : List Char) :
    ∃ w1 w2, l = w1 ++ (pyStripList l ++ w2) ∧
      (∀ c ∈ w1, isPyWs c = true) ∧ (∀ c ∈ w2, isPyWs c = true) := by
  refine ⟨l.takeWhile isPyWs, ((l.dropWhile isPyWs).reverse.takeWhile isPyWs).reverse,
    ?_, fun c hc => List.mem_takeWhile_imp hc,
    fun c hc => List.mem_takeWhile_imp (List.mem_reverse.mp hc)⟩
  have hm : l.dropWhile isPyWs =
      pyStripList l ++ ((l.dropWhile isPyWs).reverse.takeWhile isPyWs).reverse := by
    conv_lhs => rw [← List.reverse_reverse (l.dropWhile isPyWs),
      ← List.takeWhile_append_dropWhile isPyWs (l.dropWhile isPyWs).reverse]
    rw [List.reverse_append]
    rfl
  conv_lhs => rw [← List.takeWhile_append_dropWhile isPyWs l]
  conv_lhs => rw [hm]

theorem pyIntParse_chars (s : String) (x : Int) (hp : pyIntParse s = some x) :
    ∀ c ∈ s.data, numChar c = true := by
  have hmid : ∀ c ∈ pyStripList s.data, numChar c = true := by
    intro c hc
    unfold pyIntParse at hp
    cases hcs : pyStripList s.data with
    | nil =>
        rw [hcs] at hc
        cases hc
    | cons c0 rest =>
        rw [hcs] at hp hc
        dsimp only at hp
        by_cases h0 : c0 = '+'
        · rw [if_pos h0] at hp
          cases hn : parseDigits rest with
          | none => rw [hn] at hp; simp at hp
          | some n =>
              rcases List.mem_cons.mp hc with rfl | hcr
              · simp [numChar, h0]
              · rcases parseDigits_chars rest n hn c hcr with hd | hu
                · simp [numChar, hd]
                · simp [numChar, hu]
        · rw [if_neg h0] at hp
          by_cases h1 : c0 = '-'
          · rw [if_pos h1] at hp
            cases hn : parseDigits rest with
            | none => rw [hn] at hp; simp at hp
            | some n =>
                rcases List.mem_cons.mp hc with rfl | hcr
                · simp [numChar, h1]
                · rcases parseDigits_chars rest n hn c hcr with hd | hu
                  · simp [numChar, hd]
                  · simp [numChar, hu]
          · rw [if_neg h1] at hp
            cases hn : parseDigits (c0 :: rest) with
            | none => rw [hn] at hp; simp at hp
            | some n =>
                rcases parseDigits_chars (c0 :: rest) n hn c hc with hd | hu
                · simp [numChar, hd]
                · simp [numChar, hu]
  obtain ⟨w1, w2, heq, hw1, hw2⟩ := pyStripList_split s.data
  intro c hc
  rw [heq] at hc
  rcases List.mem_append.mp hc with hc1 | hc23
  · simp [numChar, hw1 c hc1]
  · rcases List.mem_append.mp hc23 with hcm | hc2
    · exact hmid c hcm
    · simp [numChar, hw2 c hc2]

theorem numChar_not_upper (c : Char) (h : numChar c = true) :
    ¬(65 ≤ c.toNat ∧ c.toNat ≤ 90) := by
  intro hcon
  obtain ⟨hc1, hc2⟩ := hcon
  unfold numChar isPyWs isAsciiDigit at h
  simp only [Bool.or_eq_true, Bool.and_eq_true, decide_eq_true_eq] at h
  casesm* _ ∨ _
  all_goals subst_vars
  all_goals first
    | omega
    | exact absurd hc1 (by decide)
    | exact absurd hc2 (by decide)

theorem numChar_lower_fix (c : Char) (h : numChar c = true) : pyLowerChar c = c := by
  unfold pyLowerChar
  rw [if_neg (numChar_not_upper c h)]

theorem map_pyLowerChar_fix (l : List Char) (h : ∀ c ∈ l, numChar c = true) :
    l.map pyLowerChar = l := by
  induction l with
  | nil => rfl
  | cons c cs ih =>
      simp only [List.map_cons]
      rw [numChar_lower_fix c (h c (List.mem_cons_self c cs)),
        ih (fun d hd => h d (List.mem_cons_of_mem c hd))]

theorem pyLower_fix (t : String) (h : ∀ c ∈ t.data, numChar c = true) :
    pyLower t = t := by
  cases t with
  | mk l => exact congrArg String.mk (map_pyLowerChar_fix l h)

theorem listStartsWith_mem (t p : List Char) (h : listStartsWith t p = true) :
    ∀ c ∈ p, c ∈ t := by
  induction p generalizing t with
  | nil => intro c hc; cases hc
  | cons q qs ih =>
      cases t with
      | nil => simp [listStartsWith] at h
      | cons a as =>
          simp only [listStartsWith, Bool.and_eq_true, decide_eq_true_eq] at h
          obtain ⟨rfl, h2⟩ := h
          intro c hc
          rcases List.mem_cons.mp hc with rfl | hc'
          · exact List.mem_cons_self _ _
          · exact List.mem_cons_of_mem _ (ih as h2 c hc')

theorem listContains_mem (t p : List Char) (h : listContains t p = true) :
    ∀ c ∈ p, c ∈ t := by
  induction t with
  | nil =>
      intro c hc
      unfold listContains at h
      rw [List.isEmpty_iff.mp h] at hc
      cases hc
  | cons a as ih =>
      unfold listContains at h
      rw [Bool.or_eq_true] at h
      rcases h with h1 | h2
      · exact listStartsWith_mem (a :: as) p h1
      · intro c hc
        exact List.mem_cons_of_mem a (ih h2 c hc)

theorem tableAny_false (phrases : List String) (t : String)
    (hph : ∀ p ∈ phrases, ∃ c ∈ p.data, numChar c = false)
    (ht : ∀ c ∈ t.data, numChar c = true) :
    phrases.any (fun p => pyIn p t) = false := by
  rw [List.any_eq_false]
  intro p hp hin
  obtain ⟨c, hcp, hcn⟩ := hph p hp
  have hct : c ∈ t.data := listContains_mem t.data p.data hin c hcp
  rw [ht c hct] at hcn
  cases hcn

theorem numChar_no_fastpath (t : String) (ht : ∀ c ∈ t.data, numChar c = true) :
    detect_mood t = none ∧ is_checkin_request t = false ∧
    ¬(pyLower t = "hi" ∨ pyLower t = "hello" ∨ pyLower t = "hey") := by
  have hlow : pyLower t = t := pyLower_fix t ht
  refine ⟨?_, ?_, ?_⟩
  · unfold detect_mood
    rw [List.find?_eq_none.mpr ?_]
    · rfl
    · intro kv hkv hcontra
      fin_cases hkv <;>
        (rw [hlow] at hcontra
         rw [tableAny_false _ t (by decide) ht] at hcontra
         cases hcontra)
  · unfold is_checkin_request
    rw [hlow]
    exact tableAny_false checkin_keywords t (by decide) ht
  · rw [hlow]
    rintro (h | h | h) <;> subst h
    · exact absurd (ht 'h' (by decide)) (by decide)
    · exact absurd (ht 'h' (by decide)) (by decide)
    · exact absurd (ht 'h' (by decide)) (by decide)

theorem route_numeric (t : String) (x : Int) (hp : pyIntParse t = some x) :
    route true t = Route.checkinAnswer := by
  have ht := pyIntParse_chars t x hp
  obtain ⟨hm, hc, hg⟩ := numChar_no_fastpath t ht
  unfold route
  rw [if_neg hg, hm]
  simp [hc]

/-- C10: while a check-in is pending, the accepted answers are exactly
the strings Python `int` parses to a value in [1,10]; this is strictly
larger than plain decimal numerals, accepting for example "+7" and
"1_0" (which parses to 10), which are logged rather than rejected. -/
theorem pending_answer_accepts_python_int (cfg : Config) (ts : Nat) (sess : Session)
    (file : Option (List CsvRow)) (msg : String)
    (hpend : sess.pending_checkin = true) :
    ((handle_message cfg ts sess file msg).session.pending_checkin = false ↔
      (∃ x : Int, pyIntParse (pyStrip msg) = some x ∧ 1 ≤ x ∧ x ≤ 10)) ∧
    (∀ x : Int, pyIntParse (pyStrip msg) = some x → 1 ≤ x → x ≤ 10 →
      (handle_message cfg ts sess file msg).file =
        some (oldRows file ++ [CsvRow.record ts x]) ∧
      (handle_message cfg ts sess file msg).shown = ackReply x) ∧
    pyIntParse "+7" = some 7 ∧ pyIntParse "1_0" = some 10 := by
  refine ⟨⟨?_, ?_⟩, ?_, by decide, by decide⟩
  · intro hdone
    cases hr : route sess.pending_checkin (pyStrip msg) with
    | greeting =>
        rw [handle_greeting_eq cfg ts sess file msg hr] at hdone
        have h2 : sess.pending_checkin = false := hdone
        rw [hpend] at h2
        cases h2
    | moodHit m =>
        rw [handle_moodHit_eq cfg ts sess file msg m hr] at hdone
        have h2 : sess.pending_checkin = false := hdone
        rw [hpend] at h2
        cases h2
    | checkinStart =>
        rw [handle_checkinStart_eq cfg ts sess file msg hr] at hdone
        have h2 : (true : Bool) = false := hdone
        cases h2
    | checkinAnswer =>
        cases hp : pyIntParse (pyStrip msg) with
        | none =>
            rw [handle_answer_bad_eq cfg ts sess file msg hr
              (fun x hx => absurd (hp ▸ hx) (by simp))] at hdone
            have h2 : sess.pending_checkin = false := hdone
            rw [hpend] at h2
            cases h2
        | some x =>
            by_cases hx : 1 ≤ x ∧ x ≤ 10
            · exact ⟨x, rfl, hx.1, hx.2⟩
            · have hbad : ∀ y : Int, pyIntParse (pyStrip msg) = some y →
                  ¬(1 ≤ y ∧ y ≤ 10) := by
                intro y hy
                rw [hp] at hy
                obtain rfl := Option.some.inj hy
                exact hx
              rw [handle_answer_bad_eq cfg ts sess file msg hr hbad] at hdone
              have h2 : sess.pending_checkin = false := hdone
              rw [hpend] at h2
              cases h2
    | freeform =>
        refine absurd hr ?_
        rw [hpend]
        exact route_true_ne_freeform _
  · rintro ⟨x, hp, h1, h2⟩
    have hr : route sess.pending_checkin (pyStrip msg) = Route.checkinAnswer := by
      rw [hpend]
      exact route_numeric (pyStrip msg) x hp
    rw [handle_answer_ok_eq cfg ts sess file msg x hr hp h1 h2]
  · intro x hp h1 h2
    have hr : route sess.pending_checkin (pyStrip msg) = Route.checkinAnswer := by
      rw [hpend]
      exact route_numeric (pyStrip msg) x hp
    rw [handle_answer_ok_eq cfg ts sess file msg x hr hp h1 h2]
    exact ⟨rfl, rfl⟩

/-- Witness for C10 on the signed answer "+7" while a check-in is
pending. -/
theorem pending_answer_accepts_python_int_witness :
    ((true : Bool) = true) ∧
    (((handle_message ⟨true, Except.error ()⟩ 3 ⟨[], true⟩ none "+7").session.pending_checkin = false ↔
        (∃ x : Int, pyIntParse (pyStrip "+7") = some x ∧ 1 ≤ x ∧ x ≤ 10)) ∧
     (∀ x : Int, pyIntParse (pyStrip "+7") = some x → 1 ≤ x → x ≤ 10 →
        (handle_message ⟨true, Except.error ()⟩ 3 ⟨[], true⟩ none "+7").file =
          some (oldRows none ++ [CsvRow.record 3 x]) ∧
        (handle_message ⟨true, Except.error ()⟩ 3 ⟨[], true⟩ none "+7").shown = ackReply x) ∧
     pyIntParse "+7" = some 7 ∧ pyIntParse "1_0" = some 10) :=
  ⟨rfl, pending_answer_accepts_python_int ⟨true, Except.error ()⟩ 3 ⟨[], true⟩ none "+7" rfl⟩
